import Mathlib

/-!
Verification of the Job Match AI single-page component (src/index.jsx).

The file shallowly embeds the two state machines of the component:

* the chat flow (`sendMessageToGemini`, lines 44-105): transcript state,
  outbound payload construction, HTTP outcome handling, citation
  extraction and formatting;
* the mock recommendation flow (`handleSubmit`, lines 124-155).

Modelling conventions:
* React `useState` slices become fields of explicit state structures;
  `setX(v)` becomes a functional update of the field.
* JavaScript objects with possibly-absent fields are embedded with
  `Option` fields.  The one exception is the `sources` field of a chat
  turn: the code appends some turns without a `sources` key at all
  (the greeting and the apology turn) and others with `sources: []`.
  The only reads of that field in the program are `msg.role`/`msg.text`
  (payload building) and `message.sources && message.sources.length > 0`
  (display), under which an absent field and an empty array are
  observationally identical, so the embedding uses a plain list with
  `[]` for "absent".
* A JavaScript exception inside the `try` block is the `.error` case of
  `Except Unit`; the `catch`/`finally` clauses are explicit.
* The browser builtin `new URL(u).hostname` (not repository code) is
  modelled by `urlHostname`: it returns `none` exactly where the builtin
  throws on the inputs considered (no `scheme:` prefix, or a `//` with
  an empty host), and the registrable host (authority minus userinfo
  and port) otherwise.
* JavaScript string truthiness (`!message.trim()`, `source.uri &&
  source.title`) is: absent, or present and equal to `""`, is falsy.
-/

set_option maxRecDepth 100000

namespace JobMatch

/-- Role tag of a chat turn; the source uses the strings "user" and
"model". -/
inductive Role where
  | user
  | model
deriving DecidableEq, Repr

/-- A citation source as built at src/index.jsx:83-86: both fields come
from optional chaining and may be absent. -/
structure RawSource where
  uri : Option String
  title : Option String
deriving DecidableEq, Repr

/-- One entry of `chatHistory` (src/index.jsx:27-29, 47, 97, 101). -/
structure Turn where
  role : Role
  text : String
  sources : List RawSource := []
deriving DecidableEq, Repr

/-- `candidate.groundingMetadata.groundingAttributions[i].web` -/
structure Web where
  uri : Option String
  title : Option String
deriving DecidableEq, Repr

/-- One grounding attribution of the API response. -/
structure Attribution where
  web : Option Web
deriving DecidableEq, Repr

/-- `candidate.groundingMetadata` -/
structure GroundingMetadata where
  groundingAttributions : Option (List Attribution)
deriving DecidableEq, Repr

/-- One element of `candidate.content.parts`. -/
structure Part where
  text : Option String
deriving DecidableEq, Repr

/-- `candidate.content` -/
structure Content where
  parts : Option (List Part)
deriving DecidableEq, Repr

/-- One element of `result.candidates`. -/
structure Candidate where
  content : Option Content
  groundingMetadata : Option GroundingMetadata
deriving DecidableEq, Repr

/-- The decoded JSON body of a completion response. -/
structure ApiResult where
  candidates : Option (List Candidate)
deriving DecidableEq, Repr

/-- Outcome of the `fetch` round trip at src/index.jsx:61-71: the network
call may reject outright; otherwise a response arrives with a status
code, and its body either decodes to an `ApiResult` or is malformed
(`response.json()` rejects, modelled as `body = none`). -/
inductive FetchResult where
  | networkFailure
  | response (status : Nat) (body : Option ApiResult)
deriving DecidableEq, Repr

/-- The chat state slice (src/index.jsx:27-31). -/
structure ChatState where
  chatHistory : List Turn
  chatInput : String
  isChatLoading : Bool
deriving DecidableEq, Repr

/-- The seeded greeting transcript (src/index.jsx:27-29). -/
def initialChatHistory : List Turn :=
  [{ role := .model,
     text := "Hello! I\x27m Job Match AI\x27s assistant. Ask me anything about career paths, job roles, or resume tips." }]

/-- Initial chat state of a session. -/
def initialChatState : ChatState :=
  { chatHistory := initialChatHistory, chatInput := "", isChatLoading := false }

/-- Fallback reply text (src/index.jsx:73). -/
def fallbackText : String := "Sorry, I couldn\x27t get a clear response."

/-- Apology text of the failure turn (src/index.jsx:101). -/
def apologyText : String :=
  "Sorry, I hit an error connecting to the intelligence engine. Please try again."

/-- The assistant turn appended by the `catch` clause (src/index.jsx:101);
the source object carries no `sources` key, embedded as `[]`. -/
def apologyTurn : Turn := { role := .model, text := apologyText }

/-- The fixed system instruction (src/index.jsx:52). -/
def systemInstruction : String :=
  "You are a helpful career guidance chatbot embedded in a Job Match AI application. You assist users with questions about their resume analysis, job roles, and career development. Be concise and use Google Search for up-to-date, real-time information."

/-- One role-tagged message of the outbound payload: the map at
src/index.jsx:56 keeps exactly the role and the text of each turn. -/
structure PayloadMessage where
  role : Role
  text : String
deriving DecidableEq, Repr

/-- The outbound request payload (src/index.jsx:55-59): the full mapped
history plus the fixed system instruction (the `tools` entry is a
constant and carries no data). -/
structure Payload where
  contents : List PayloadMessage
  system : String
deriving DecidableEq, Repr

/-- src/index.jsx:56: `newChatHistory.map(msg => ({role: msg.role,
parts: [{text: msg.text}]}))` together with the fixed instruction. -/
def buildPayload (history : List Turn) : Payload :=
  { contents := history.map fun msg => { role := msg.role, text := msg.text },
    system := systemInstruction }

/-- Model of `String.prototype.trim`: drop leading and trailing
whitespace.  For the ASCII strings in scope this agrees with the
JavaScript builtin. -/
def jsTrim (s : String) : String :=
  String.mk
    (((s.toList.dropWhile Char.isWhitespace).reverse.dropWhile
        Char.isWhitespace).reverse)

/-- JavaScript truthiness of an optionally-present string. -/
def truthy : Option String → Bool
  | none => false
  | some s => s ≠ ""

/-- Template interpolation of a possibly-absent string. -/
def optShow : Option String → String
  | none => "undefined"
  | some s => s

/-- Characters allowed in a URL scheme after the leading letter. -/
def schemeChar (c : Char) : Bool :=
  c.isAlphanum || c == '+' || c == '-' || c == '.'

/-- The authority runs up to the first of `/`, `?`, `#`. -/
def takeAuthority : List Char → List Char
  | [] => []
  | c :: cs => if c = '/' ∨ c = '?' ∨ c = '#' then [] else c :: takeAuthority cs

/-- The host begins after the last `@` of the authority (userinfo). -/
def dropUserinfo (l : List Char) : List Char :=
  (l.reverse.takeWhile (· ≠ '@')).reverse

/-- The host ends before the first `:` of what remains (port). -/
def dropPort (l : List Char) : List Char :=
  l.takeWhile (· ≠ ':')

/-- Model of the browser builtin `new URL(u).hostname` used at
src/index.jsx:94 (platform code, not in the repository): `none` models
the builtin throwing.  A URL must start with `letter schemeChar* ":"`;
with a following `//` the hostname is the authority stripped of
userinfo and port and must be non-empty; without `//` the hostname is
empty (opaque path). -/
def urlHostname (u : String) : Option String :=
  let cs := u.toList
  let scheme := cs.takeWhile (fun c => c ≠ ':')
  let rest := cs.dropWhile (fun c => c ≠ ':')
  match rest with
  | [] => none
  | _ :: afterColon =>
    match scheme with
    | [] => none
    | c0 :: cs' =>
      if c0.isAlpha ∧ (cs'.all schemeChar) then
        match afterColon with
        | '/' :: '/' :: tail =>
          let host := dropPort (dropUserinfo (takeAuthority tail))
          if host = [] then none else some (String.mk host)
        | _ => some ""
      else none

/-- `new URL(s.uri)` with `s.uri` absent stringifies `undefined`, which
has no scheme and throws. -/
def urlHostnameOpt : Option String → Option String
  | none => none
  | some u => urlHostname u

/-- src/index.jsx:72, 76: `result.candidates?.[0]`, then
`candidate.content?.parts?.[0]?.text` with a truthiness test. -/
def candidateText (r : ApiResult) : Option String :=
  match r.candidates.bind List.head? with
  | none => none
  | some c =>
    match (c.content.bind Content.parts).bind List.head? with
    | none => none
    | some p => if truthy p.text then p.text else none

/-- src/index.jsx:82-87: map each attribution to `{uri, title}` via
optional chaining, then keep only those with both fields truthy. -/
def extractSources (attrs : List Attribution) : List RawSource :=
  (attrs.map fun attribution =>
      { uri := attribution.web.bind Web.uri,
        title := attribution.web.bind Web.title }).filter
    fun source => truthy source.uri && truthy source.title

/-- src/index.jsx:73-89: the displayed reply text (the fallback when the
first candidate or its text is missing or empty). -/
def responseTextOf (r : ApiResult) : String :=
  match candidateText r with
  | some t => t
  | none => fallbackText

/-- src/index.jsx:74-89: sources stay `[]` unless the candidate text is
truthy and grounding attributions are present. -/
def sourcesOf (r : ApiResult) : List RawSource :=
  match candidateText r with
  | none => []
  | some _ =>
    match r.candidates.bind List.head? with
    | none => []
    | some c =>
      match c.groundingMetadata with
      | none => []
      | some gm =>
        match gm.groundingAttributions with
        | none => []
        | some attrs => extractSources attrs

/-- One citation line of src/index.jsx:94; `none` models the `new URL`
throw escaping the map. -/
def citationLine (i : Nat) (s : RawSource) : Except Unit String :=
  match urlHostnameOpt s.uri with
  | none => .error ()
  | some h =>
    .ok ("[" ++ toString (i + 1) ++ "] " ++ optShow s.title ++ " (" ++ h ++ ")")

/-- The citation lines in index order starting at `i`; the JavaScript
`map` callback runs left to right and a `new URL` throw aborts the
whole map. -/
def citationLines (i : Nat) : List RawSource → Except Unit (List String)
  | [] => .ok []
  | s :: ss => do
    let line ← citationLine i s
    let rest ← citationLines (i + 1) ss
    pure (line :: rest)

/-- src/index.jsx:94: `sources.map((s, i) => ...).join(newline)`. -/
def formatSources (sources : List RawSource) : Except Unit String := do
  let lines ← citationLines 0 sources
  pure (String.intercalate "\n" lines)

/-- src/index.jsx:92-95: append the citation block when at least one
source survived the filter. -/
def fullResponseOf (r : ApiResult) : Except Unit String :=
  let responseText := responseTextOf r
  let sources := sourcesOf r
  if sources.length > 0 then do
    let block ← formatSources sources
    pure (responseText ++ "\n\n**Sources:**\n" ++ block)
  else
    pure responseText

/-- src/index.jsx:71-97: turn a decoded response into the assistant turn
to append, or an escaping exception. -/
def processResult (r : ApiResult) : Except Unit Turn := do
  let fullResponse ← fullResponseOf r
  pure { role := .model, text := fullResponse, sources := sourcesOf r }

/-- `response.ok`: status in the 2xx range. -/
def statusOk (status : Nat) : Bool :=
  200 ≤ status && status ≤ 299

/-- src/index.jsx:61-97, the body of the `try` block after the request
is issued: a network rejection, a non-2xx status (line 67-69) or a
malformed body all throw; otherwise the response is processed. -/
def tryBlock (f : FetchResult) : Except Unit Turn :=
  match f with
  | .networkFailure => .error ()
  | .response status body =>
    if statusOk status then
      match body with
      | none => .error ()
      | some r => processResult r
    else .error ()

/-- src/index.jsx:97-101: the turn appended at resolution - the processed
turn, or the apology turn from the `catch` clause. -/
def resolveTurn (f : FetchResult) : Turn :=
  match tryBlock f with
  | .ok t => t
  | .error _ => apologyTurn

/-- The user turn appended at src/index.jsx:47: the message verbatim. -/
def mkUserTurn (message : String) : Turn :=
  { role := .user, text := message }

/-- src/index.jsx:44-50, the synchronous prefix of `sendMessageToGemini`:
guard on blank input, append the user turn, clear the input, raise the
loading flag, and issue the request (`some payload`), all before any
awaited result.  `none` means no request was issued. -/
def sendMessageToGeminiSync (s : ChatState) (message : String) :
    ChatState × Option Payload :=
  if jsTrim message = "" then (s, none)
  else
    let newChatHistory := s.chatHistory ++ [mkUserTurn message]
    ({ chatHistory := newChatHistory, chatInput := "", isChatLoading := true },
     some (buildPayload newChatHistory))

/-- src/index.jsx:97-104, the resolution phase: append the resolved turn
with a functional update and lower the loading flag (`finally`). -/
def sendMessageToGeminiResolve (s : ChatState) (f : FetchResult) : ChatState :=
  { s with chatHistory := s.chatHistory ++ [resolveTurn f],
           isChatLoading := false }

/-- One full sequential submit/resolve cycle of `sendMessageToGemini`
(src/index.jsx:44-105) with outcome `f` for the HTTP round trip. -/
def sendMessageToGemini (s : ChatState) (message : String) (f : FetchResult) :
    ChatState :=
  if jsTrim message = "" then s
  else sendMessageToGeminiResolve (sendMessageToGeminiSync s message).1 f

/-- A sequence of submit/resolve cycles, each starting after the previous
one resolved. -/
def runSubmits (s : ChatState) (xs : List (String × FetchResult)) : ChatState :=
  xs.foldl (fun st p => sendMessageToGemini st p.1 p.2) s

/-! ## The mock recommendation flow (src/index.jsx:5-14, 124-155) -/

/-- src/index.jsx:5-12. -/
def MOCK_RECOMMENDATIONS : List String :=
  ["1. Software Development Intern (Python/Database)",
   "2. Junior Backend Developer (SQL/MongoDB)",
   "3. Mid-Level Python Software Engineer",
   "4. Data Engineer (Database & ETL Focus)",
   "5. Senior Backend Engineer (Distributed Systems)",
   "6. Database Architect (MongoDB/SQL Optimization)"]

/-- src/index.jsx:14. -/
def MOCK_SKILLS_FROM_RESUME : String :=
  "Python, SQL, MongoDB, Database Management, CRUD application logic, Teamwork, Communication."

/-- Validation message set at src/index.jsx:131. -/
def validationMessage : String :=
  "Please enter skills or select a file to begin the analysis."

/-- The recommendation state slice (src/index.jsx:18-23); only the file
name is consumed, so `resumeFile` carries it. -/
structure RecState where
  skillsText : String
  resumeFile : Option String
  recommendations : List String
  skillsUsed : String
  isLoading : Bool
  error : Option String
deriving DecidableEq, Repr

/-- src/index.jsx:126-128, the synchronous prefix of every invocation of
`handleSubmit`: clear the error, the recommendations and the skills
summary. -/
def clearResults (s : RecState) : RecState :=
  { s with error := none, recommendations := [], skillsUsed := "" }

/-- src/index.jsx:141-144: the combined-skills summary. -/
def combinedSkillsOf (skillsText : String) : String :=
  if jsTrim skillsText ≠ "" then
    "[From Textbox: " ++ jsTrim skillsText ++ "] + [From Resume: "
      ++ MOCK_SKILLS_FROM_RESUME ++ "]"
  else MOCK_SKILLS_FROM_RESUME

/-- src/index.jsx:124-155, `handleSubmit`, modelled to its resolution:
clear previous results, validate (early return with the error message
when both inputs are empty), otherwise raise `isLoading`, wait the
fixed delay, store the mock recommendations and the summary, and lower
`isLoading` in the `finally` clause.  The artificial 2000 ms delay has
no observable effect on the state and is not represented. -/
def handleSubmit (s : RecState) : RecState :=
  let s' := clearResults s
  if jsTrim s'.skillsText = "" ∧ s'.resumeFile = none then
    { s' with error := some validationMessage }
  else
    { s' with recommendations := MOCK_RECOMMENDATIONS,
              skillsUsed := combinedSkillsOf s'.skillsText,
              isLoading := false }

/-! ## Auxiliary definitions used by the statements below -/

/-- A transport-level failure of the round trip: the network call
rejected, the status is outside the 2xx range, or the body is
malformed. -/
def isTransportFailure : FetchResult → Bool
  | .networkFailure => true
  | .response status body => !statusOk status || body.isNone

/-- The spec-side filter on attributions: keep a `{uri, title}` pair
exactly when both fields are present and non-empty, drop it otherwise.
Compared below with the map-then-filter pipeline of the code. -/
def keepAttribution (a : Attribution) : Option RawSource :=
  match a.web with
  | none => none
  | some w =>
    match w.uri, w.title with
    | some u, some t =>
      if u ≠ "" ∧ t ≠ "" then some { uri := some u, title := some t } else none
    | _, _ => none

/-- The text of the citation line of index `i` when the hostname parse
succeeds. -/
def citationLineText (i : Nat) (s : RawSource) : String :=
  "[" ++ toString (i + 1) ++ "] " ++ optShow s.title
    ++ " (" ++ optShow (urlHostnameOpt s.uri) ++ ")"

/-- A chat state with a request in flight: the loading flag is raised and
the transcript already holds the optimistic user turn. -/
def pendingChatState : ChatState :=
  { chatHistory := initialChatHistory ++ [mkUserTurn "What roles fit my skills?"],
    chatInput := "",
    isChatLoading := true }

/-- A well-formed 200 response whose reply text is present and whose one
attribution survives the filter but carries a scheme-less URI, on which
`new URL` throws. -/
def malformedUriResult : ApiResult :=
  { candidates := some
      [{ content := some { parts := some [{ text := some "Here are some roles to consider." }] },
         groundingMetadata := some
           { groundingAttributions := some
               [{ web := some { uri := some "example.com/listing",
                                title := some "Job Listing" } }] } }] }

/-- A well-formed 200 response with reply text and two surviving,
parseable citations. -/
def twoSourceResult : ApiResult :=
  { candidates := some
      [{ content := some { parts := some [{ text := some "Consider these roles." }] },
         groundingMetadata := some
           { groundingAttributions := some
               [{ web := some { uri := some "https://example.com/a",
                                title := some "Example A" } },
                { web := some { uri := some "https://news.test.org/b",
                                title := some "Test B" } }] } }] }

/-- A recommendation state holding the results of an earlier successful
analysis, with a whitespace-only skills text and no file selected. -/
def staleRecState : RecState :=
  { skillsText := "  ",
    resumeFile := none,
    recommendations := MOCK_RECOMMENDATIONS,
    skillsUsed := "old summary",
    isLoading := false,
    error := none }

/-- A recommendation state with the skills text of the spec's example
and no file selected. -/
def pythonSqlRecState : RecState :=
  { skillsText := "Python, SQL",
    resumeFile := none,
    recommendations := [],
    skillsUsed := "",
    isLoading := false,
    error := none }

/-! ## Shared lemmas -/

/-- A non-blank submit appends exactly the user turn and the resolved
assistant turn to the transcript. -/
theorem sendMessageToGemini_history (s : ChatState) (m : String)
    (f : FetchResult) (h : ¬ jsTrim m = "") :
    (sendMessageToGemini s m f).chatHistory
      = s.chatHistory ++ [mkUserTurn m, resolveTurn f] := by
  simp [sendMessageToGemini, sendMessageToGeminiSync, sendMessageToGeminiResolve, h]

/-- A non-blank submit always ends with the loading flag lowered. -/
theorem sendMessageToGemini_not_loading (s : ChatState) (m : String)
    (f : FetchResult) (h : ¬ jsTrim m = "") :
    (sendMessageToGemini s m f).isChatLoading = false := by
  simp [sendMessageToGemini, sendMessageToGeminiSync, sendMessageToGeminiResolve, h]

/-- The transcript produced by a sequence of non-blank submits is the
initial transcript followed by a user/assistant pair for each submit. -/
theorem runSubmits_history (xs : List (String × FetchResult)) (s : ChatState)
    (h : ∀ p ∈ xs, ¬ jsTrim p.1 = "") :
    (runSubmits s xs).chatHistory
      = s.chatHistory
          ++ (xs.map fun p => [mkUserTurn p.1, resolveTurn p.2]).flatten := by
  induction xs generalizing s with
  | nil => simp [runSubmits]
  | cons p ps ih =>
    have hstep := sendMessageToGemini_history s p.1 p.2 (h p (by simp))
    have htail := ih (sendMessageToGemini s p.1 p.2)
      (fun q hq => h q (List.mem_cons_of_mem p hq))
    simp only [runSubmits, List.foldl_cons] at *
    rw [htail, hstep]
    simp

/-- Each submit contributes a two-turn block, so the flattened blocks
have twice as many turns as there were submits. -/
theorem pairs_flatten_length (xs : List (String × FetchResult)) :
    ((xs.map fun p => [mkUserTurn p.1, resolveTurn p.2]).flatten).length
      = 2 * xs.length := by
  induction xs with
  | nil => rfl
  | cons p ps ih =>
    simp only [List.map_cons, List.flatten_cons, List.length_append,
      List.length_cons, List.length_nil, ih]
    omega

/-! ## Claims -/

/-- C7: for every empty or whitespace-only message, submit is a no-op:
the synchronous phase returns the state unchanged and issues no request,
and the full cycle leaves every field of the chat state unchanged. -/
theorem claim7_blank_message_noop (s : ChatState) (m : String) (f : FetchResult)
    (h : jsTrim m = "") :
    sendMessageToGeminiSync s m = (s, none) ∧ sendMessageToGemini s m f = s := by
  constructor <;> simp [sendMessageToGeminiSync, sendMessageToGemini, h]

/-- Witness for C7 at the whitespace-only message. -/
theorem claim7_blank_message_noop_witness :
    jsTrim "   " = ""
    ∧ sendMessageToGeminiSync initialChatState "   " = (initialChatState, none)
    ∧ sendMessageToGemini initialChatState "   " FetchResult.networkFailure
        = initialChatState := by
  refine ⟨by decide, ?_⟩
  exact claim7_blank_message_noop initialChatState "   "
    FetchResult.networkFailure (by decide)

/-- C1 evidence: in a state whose loading flag is raised (a request in
flight), a direct call of the submit operation still issues a second
outbound request: the synchronous phase returns `some` payload.  The
in-flight invariant is enforced only by the disabled input affordance in
the presentation layer, not by `sendMessageToGemini` itself. -/
theorem claim1_submit_has_no_pending_guard :
    pendingChatState.isChatLoading = true
    ∧ (sendMessageToGeminiSync pendingChatState "hello").2
        = some (buildPayload (pendingChatState.chatHistory ++ [mkUserTurn "hello"]))
    ∧ ((sendMessageToGeminiSync pendingChatState "hello").2).isSome = true := by
  decide

/-- C4 counterexample: the appended user turn carries the message
verbatim, not the trimmed message: submitting a message with
surrounding whitespace appends a turn whose text still has the
whitespace. -/
theorem claim4_counterexample :
    ((sendMessageToGeminiSync initialChatState " resume tips ").1).chatHistory
      = initialChatHistory ++ [mkUserTurn " resume tips "]
    ∧ (mkUserTurn " resume tips ").text = " resume tips "
    ∧ jsTrim " resume tips " = "resume tips"
    ∧ (mkUserTurn " resume tips ").text ≠ jsTrim " resume tips " := by
  refine ⟨?_, rfl, by decide, by decide⟩
  simp [sendMessageToGeminiSync, mkUserTurn]
  decide

/-- C4 (amended): for every message that is not whitespace-only, the
synchronous phase of submit appends one user turn whose text is the
message exactly as passed (not trimmed), clears the input buffer before
the network call resolves, and issues exactly one request whose payload
lists every transcript turn in order, up to and including the new user
turn. -/
theorem claim4_submit_sync_effects (s : ChatState) (m : String)
    (h : ¬ jsTrim m = "") :
    (sendMessageToGeminiSync s m).1.chatHistory = s.chatHistory ++ [mkUserTurn m]
    ∧ (mkUserTurn m).text = m
    ∧ (sendMessageToGeminiSync s m).1.chatInput = ""
    ∧ (sendMessageToGeminiSync s m).1.isChatLoading = true
    ∧ (sendMessageToGeminiSync s m).2
        = some (buildPayload (s.chatHistory ++ [mkUserTurn m]))
    ∧ (buildPayload (s.chatHistory ++ [mkUserTurn m])).contents
        = (s.chatHistory ++ [mkUserTurn m]).map
            fun t => { role := t.role, text := t.text } := by
  refine ⟨?_, rfl, ?_, ?_, ?_, rfl⟩ <;> simp [sendMessageToGeminiSync, h]

/-- Witness for C4 at a concrete message. -/
theorem claim4_submit_sync_effects_witness :
    ¬ jsTrim "hello" = ""
    ∧ (sendMessageToGeminiSync initialChatState "hello").1.chatHistory
        = initialChatState.chatHistory ++ [mkUserTurn "hello"] := by
  refine ⟨by decide, ?_⟩
  exact (claim4_submit_sync_effects initialChatState "hello" (by decide)).1

/-- C2: after any sequence of N non-blank submits, each resolving before
the next begins, the transcript is the initial transcript followed by
one user turn then one assistant turn per submit, in that order; hence
its length is the initial length plus 2N and the initial transcript is
a prefix of the final one (no turn is mutated or removed). -/
theorem claim2_transcript_growth (s : ChatState)
    (xs : List (String × FetchResult)) (h : ∀ p ∈ xs, ¬ jsTrim p.1 = "") :
    (runSubmits s xs).chatHistory
        = s.chatHistory
            ++ (xs.map fun p => [mkUserTurn p.1, resolveTurn p.2]).flatten
    ∧ (runSubmits s xs).chatHistory.length = s.chatHistory.length + 2 * xs.length
    ∧ s.chatHistory <+: (runSubmits s xs).chatHistory := by
  have hrun := runSubmits_history xs s h
  refine ⟨hrun, ?_, ⟨_, hrun.symm⟩⟩
  rw [hrun, List.length_append, pairs_flatten_length]

/-- Witness for C2: two successful submits append four turns. -/
theorem claim2_transcript_growth_witness :
    (∀ p ∈ [("hello", FetchResult.networkFailure),
            ("thanks", FetchResult.networkFailure)], ¬ jsTrim p.1 = "")
    ∧ (runSubmits initialChatState
          [("hello", FetchResult.networkFailure),
           ("thanks", FetchResult.networkFailure)]).chatHistory.length
        = initialChatState.chatHistory.length + 2 * 2 :=
  ⟨by decide,
   (claim2_transcript_growth initialChatState
      [("hello", FetchResult.networkFailure),
       ("thanks", FetchResult.networkFailure)] (by decide)).2.1⟩

/-- C3: for every run of submit with a non-blank message whose round
trip fails at the transport level (network failure, non-2xx status, or
malformed body), exactly one assistant turn is appended after the user
turn, it carries the fixed apology text and an empty sources sequence,
and the loading flag returns to false.  `sendMessageToGemini` is a total
function, so no exception escapes it. -/
theorem claim3_failure_apology_turn (s : ChatState) (m : String)
    (f : FetchResult) (hm : ¬ jsTrim m = "")
    (hf : isTransportFailure f = true) :
    (sendMessageToGemini s m f).chatHistory
        = s.chatHistory ++ [mkUserTurn m, apologyTurn]
    ∧ apologyTurn.role = Role.model
    ∧ apologyTurn.text = apologyText
    ∧ apologyTurn.sources = []
    ∧ (sendMessageToGemini s m f).isChatLoading = false := by
  have hresolve : resolveTurn f = apologyTurn := by
    cases f with
    | networkFailure => rfl
    | response status body =>
      simp only [isTransportFailure, Bool.or_eq_true, Bool.not_eq_eq_eq_not,
        Bool.not_true, Option.isNone_iff_eq_none] at hf
      rcases hf with hst | hb
      · simp [resolveTurn, tryBlock, hst]
      · cases hst : statusOk status <;> simp [resolveTurn, tryBlock, hst, hb]
  refine ⟨?_, rfl, rfl, rfl, ?_⟩
  · rw [sendMessageToGemini_history s m f hm, hresolve]
  · exact sendMessageToGemini_not_loading s m f hm

/-- Witness for C3 at a 500 status with a well-formed body. -/
theorem claim3_failure_apology_turn_witness :
    ¬ jsTrim "hello" = ""
    ∧ isTransportFailure (FetchResult.response 500 (some twoSourceResult)) = true
    ∧ (sendMessageToGemini initialChatState "hello"
          (FetchResult.response 500 (some twoSourceResult))).chatHistory
        = initialChatState.chatHistory ++ [mkUserTurn "hello", apologyTurn] :=
  ⟨by decide, by decide,
   (claim3_failure_apology_turn initialChatState "hello"
      (FetchResult.response 500 (some twoSourceResult))
      (by decide) (by decide)).1⟩

/-- The map-then-filter citation pipeline of the code equals a single
order-preserving filterMap through the keep-iff-both-non-empty rule. -/
theorem extractSources_eq_filterMap (attrs : List Attribution) :
    extractSources attrs = attrs.filterMap keepAttribution := by
  induction attrs with
  | nil => rfl
  | cons a as ih =>
    have hcons : extractSources (a :: as)
        = if truthy (a.web.bind Web.uri) && truthy (a.web.bind Web.title)
          then { uri := a.web.bind Web.uri, title := a.web.bind Web.title }
                 :: extractSources as
          else extractSources as := by
      simp [extractSources, List.filter_cons]
    rw [hcons, List.filterMap_cons, ih]
    rcases a with ⟨w⟩
    cases w with
    | none => simp [truthy, keepAttribution]
    | some w' =>
      rcases w' with ⟨u, t⟩
      cases u with
      | none => simp [truthy, keepAttribution]
      | some u' =>
        cases t with
        | none => simp [truthy, keepAttribution]
        | some t' =>
          by_cases hu : u' = "" <;> by_cases ht : t' = "" <;>
            simp [truthy, keepAttribution, hu, ht]

/-- C5: the citation extractor keeps an attribution as a source pair
exactly when both the uri and the title are present and non-empty, in
the order the API returned them (an order-preserving filterMap), and a
response with zero surviving attributions yields an assistant turn with
an empty sources sequence whose displayed text is the plain reply with
no citation block appended. -/
theorem claim5_source_filter (attrs : List Attribution) (r : ApiResult)
    (h : sourcesOf r = []) :
    extractSources attrs = attrs.filterMap keepAttribution
    ∧ processResult r
        = .ok { role := .model, text := responseTextOf r, sources := [] } := by
  refine ⟨extractSources_eq_filterMap attrs, ?_⟩
  simp only [processResult, fullResponseOf, h, List.length_nil, gt_iff_lt,
    Nat.lt_irrefl, if_false]
  rfl

/-- Witness for C5: one attribution of each malformed shape plus one
well-formed one, and a sourceless response. -/
theorem claim5_source_filter_witness :
    sourcesOf (ApiResult.mk (some [])) = []
    ∧ extractSources
        [{ web := none },
         { web := some { uri := some "https://example.com/a", title := none } },
         { web := some { uri := some "", title := some "Empty" } },
         { web := some { uri := some "https://example.com/a",
                         title := some "Example A" } }]
        = [{ web := none },
           { web := some { uri := some "https://example.com/a", title := none } },
           { web := some { uri := some "", title := some "Empty" } },
           { web := some { uri := some "https://example.com/a",
                           title := some "Example A" } }].filterMap keepAttribution :=
  ⟨by decide,
   (claim5_source_filter
      [{ web := none },
       { web := some { uri := some "https://example.com/a", title := none } },
       { web := some { uri := some "", title := some "Empty" } },
       { web := some { uri := some "https://example.com/a",
                       title := some "Example A" } }]
      (ApiResult.mk (some [])) (by decide)).1⟩

/-- When every uri parses, the monadic line builder returns exactly the
1-indexed citation lines. -/
theorem citationLines_ok (ss : List RawSource) (i : Nat)
    (hp : ∀ s ∈ ss, (urlHostnameOpt s.uri).isSome = true) :
    citationLines i ss
      = .ok ((ss.enumFrom i).map fun p => citationLineText p.1 p.2) := by
  induction ss generalizing i with
  | nil => rfl
  | cons s ss ih =>
    obtain ⟨h, hh⟩ := Option.isSome_iff_exists.mp (hp s (by simp))
    have htail := ih (i + 1) (fun q hq => hp q (List.mem_cons_of_mem s hq))
    simp only [citationLines, citationLine, citationLineText, hh, optShow,
      htail, List.enumFrom, List.map_cons]
    rfl

/-- C6: whenever at least one citation survives filtering and every
surviving uri parses, the assistant turn's displayed text is the reply
followed by the citation block: the header line, then exactly one line
per surviving source in input order, numbered from 1, each showing the
index, the title, and the hostname parsed from the uri. -/
theorem claim6_citation_block (r : ApiResult)
    (hne : sourcesOf r ≠ [])
    (hp : ∀ s ∈ sourcesOf r, (urlHostnameOpt s.uri).isSome = true) :
    processResult r = .ok
      { role := .model,
        text := responseTextOf r ++ "\n\n**Sources:**\n"
            ++ String.intercalate "\n"
                ((sourcesOf r).enum.map fun p => citationLineText p.1 p.2),
        sources := sourcesOf r } := by
  have hfmt := citationLines_ok (sourcesOf r) 0 hp
  have hlen : 0 < (sourcesOf r).length := List.length_pos.mpr hne
  simp [processResult, fullResponseOf, formatSources, hlen, hfmt, List.enum]

/-- Witness for C6 at the two-source response. -/
theorem claim6_citation_block_witness :
    sourcesOf twoSourceResult ≠ []
    ∧ (∀ s ∈ sourcesOf twoSourceResult, (urlHostnameOpt s.uri).isSome = true)
    ∧ processResult twoSourceResult = .ok
        { role := .model,
          text := responseTextOf twoSourceResult ++ "\n\n**Sources:**\n"
              ++ String.intercalate "\n"
                  ((sourcesOf twoSourceResult).enum.map
                    fun p => citationLineText p.1 p.2),
          sources := sourcesOf twoSourceResult } :=
  ⟨by decide, by decide,
   claim6_citation_block twoSourceResult (by decide) (by decide)⟩

/-- C9: on a well-formed 200 response whose reply text is present and
whose one surviving citation carries a scheme-less uri, the hostname
parse fails inside the response-handling block, so the whole extracted
reply is discarded: processing throws and the appended assistant turn
is the fixed apology turn. -/
theorem claim9_malformed_uri_discards_reply :
    responseTextOf malformedUriResult = "Here are some roles to consider."
    ∧ sourcesOf malformedUriResult
        = [{ uri := some "example.com/listing", title := some "Job Listing" }]
    ∧ urlHostname "example.com/listing" = none
    ∧ processResult malformedUriResult = Except.error ()
    ∧ resolveTurn (FetchResult.response 200 (some malformedUriResult))
        = apologyTurn := by
  refine ⟨rfl, rfl, rfl, rfl, rfl⟩

/-- C8: a submission with blank skills text and no file fails
synchronously with the validation error, produces no result and leaves
the loading flag untouched; a submission with non-blank skills text and
no file resolves to the fixed 6-item mock recommendation list and a
summary containing the literal trimmed input alongside the fixed mock
resume-skills string. -/
theorem claim8_analyze (s t : RecState)
    (hs : jsTrim s.skillsText = "") (hsf : s.resumeFile = none)
    (ht : ¬ jsTrim t.skillsText = "") (htf : t.resumeFile = none) :
    (handleSubmit s
        = { s with error := some validationMessage, recommendations := [],
                   skillsUsed := "" }
      ∧ (handleSubmit s).isLoading = s.isLoading)
    ∧ (handleSubmit t
        = { t with error := none, recommendations := MOCK_RECOMMENDATIONS,
                   skillsUsed := combinedSkillsOf t.skillsText,
                   isLoading := false }
      ∧ MOCK_RECOMMENDATIONS.length = 6
      ∧ combinedSkillsOf t.skillsText
          = "[From Textbox: " ++ jsTrim t.skillsText ++ "] + [From Resume: "
              ++ MOCK_SKILLS_FROM_RESUME ++ "]") := by
  refine ⟨⟨?_, ?_⟩, ?_, rfl, ?_⟩ <;>
    simp [handleSubmit, clearResults, combinedSkillsOf, hs, hsf, ht, htf]

/-- Witness for C8 at a blank-input state and at the "Python, SQL"
state. -/
theorem claim8_analyze_witness :
    jsTrim staleRecState.skillsText = ""
    ∧ ¬ jsTrim pythonSqlRecState.skillsText = ""
    ∧ handleSubmit staleRecState
        = { staleRecState with error := some validationMessage,
                               recommendations := [], skillsUsed := "" }
    ∧ handleSubmit pythonSqlRecState
        = { pythonSqlRecState with
              error := none,
              recommendations := MOCK_RECOMMENDATIONS,
              skillsUsed := combinedSkillsOf pythonSqlRecState.skillsText,
              isLoading := false } :=
  ⟨by decide, by decide,
   (claim8_analyze staleRecState pythonSqlRecState
      (by decide) rfl (by decide) rfl).1.1,
   (claim8_analyze staleRecState pythonSqlRecState
      (by decide) rfl (by decide) rfl).2.1⟩

/-- C10: a validation-failing submission still runs the synchronous
clearing prefix first, so it erases the recommendations, the summary
and the error of an earlier successful analysis, leaving only the fresh
validation error. -/
theorem claim10_validation_clears_previous_results (s : RecState)
    (hv : jsTrim s.skillsText = "") (hf : s.resumeFile = none) :
    handleSubmit s = { clearResults s with error := some validationMessage }
    ∧ (handleSubmit s).recommendations = []
    ∧ (handleSubmit s).skillsUsed = ""
    ∧ (handleSubmit s).error = some validationMessage := by
  refine ⟨?_, ?_, ?_, ?_⟩ <;> simp [handleSubmit, clearResults, hv, hf]

/-- Witness for C10: the stale state still holds six recommendations
and a summary, and they are erased. -/
theorem claim10_validation_clears_previous_results_witness :
    jsTrim staleRecState.skillsText = ""
    ∧ staleRecState.recommendations ≠ []
    ∧ staleRecState.skillsUsed ≠ ""
    ∧ (handleSubmit staleRecState).recommendations = []
    ∧ (handleSubmit staleRecState).skillsUsed = "" :=
  ⟨by decide, by decide, by decide,
   (claim10_validation_clears_previous_results staleRecState
      (by decide) rfl).2.1,
   (claim10_validation_clears_previous_results staleRecState
      (by decide) rfl).2.2.1⟩

end JobMatch
